import Mathlib

/-! Verification of the Python Vehicle Simulator scenario program.

The file embeds `src/python_vehicle_simulator/main.py` (the driver script)
together with the library components it calls.  The bodies of
`shipClarke83`, `simulate`, `attitudeEuler` and the vehicle methods
`headingAutopilot` / `dynamics` live in the `python_vehicle_simulator`
package, outside the visible source; they are modelled from the
specification, as indicated on each definition.

Conventions of the embedding: real numbers are rationals; angles are
measured in degrees (the source's `eta_init` yaw of `pi/3` rad is 60
degrees); the parts of the physics the specification leaves to the
hydrodynamic formulation (the force model and the kinematic transformation)
are abstract parameters bundled in `EnvFns`, since no property below
depends on their concrete values. -/

/-- Earth-fixed position/attitude (eta) and body velocity (nu) vectors have
six components. -/
abbrev Vec6 := Fin 6 → ℚ

/-- Degrees of freedom (main.py line 49: `DOF = 6`). -/
def DOF : ℕ := 6

/-- Number of actuator channels.  Modelled from the spec: `dimU` is the
vehicle's actuator count; the shipClarke83 heading autopilot commands a
single rudder. -/
def dimU : ℕ := 1

/-- Clip a value to the interval from `lo` to `hi`. -/
def clampQ (lo hi x : ℚ) : ℚ := max lo (min hi x)

/-- Modelled from the spec: smallest-signed-angle wrap, normalising a degree
value to the interval (-180, 180]. -/
def ssa (x : ℚ) : ℚ := x - 360 * ⌈(x - 180) / 360⌉

/-- Modelled from the spec (section 6): the `shipClarke83` construction
parameters.  Hull data, speeds and the desired heading come from the call in
main.py line 47; the inertia data, autopilot gains and actuator limits are
internal to the vehicle class. -/
structure Config where
  psi_d : ℚ
  L : ℚ
  B : ℚ
  T : ℚ
  Cb : ℚ
  U_current : ℚ
  U_desired : ℚ
  Mdiag : Fin 6 → ℚ
  Kp : ℚ
  Kd : ℚ
  Ki : ℚ
  deltaMax : ℚ
  deltaRateMax : ℚ

/-- Modelled from the spec (section 7): the error taxonomy of the core. -/
inductive SimError where
  | configurationError
  | domainError
  deriving DecidableEq

/-- The vehicle object: immutable configuration, the initial velocity and
actuator state read by the driver, and the autopilot's internal integral
accumulator, which is mutated by every `headingAutopilot` call. -/
structure Vehicle where
  cfg : Config
  nu : Vec6
  u_actual : ℚ
  e_int : ℚ

/-- Modelled from the spec (sections 3 and 7): the construction-time
validity checks — positive length and speed parameters, nonsingular
(here: diagonal, all entries nonzero) mass/inertia matrix, positive
actuator limits. -/
def validConfig (c : Config) : Prop :=
  0 < c.L ∧ 0 < c.U_current ∧ 0 < c.U_desired ∧ (∀ i, c.Mdiag i ≠ 0) ∧
    0 < c.deltaMax ∧ 0 < c.deltaRateMax

instance (c : Config) : Decidable (validConfig c) := by
  unfold validConfig
  infer_instance

/-- Modelled from the spec (sections 4.1 and 7): vehicle construction
validates the configuration and fails with `ConfigurationError` on a
degenerate one; a fresh vehicle starts at rest with a centered actuator and
a zero integral accumulator. -/
def shipClarke83 (c : Config) : Except SimError Vehicle :=
  if validConfig c then
    .ok { cfg := c, nu := fun _ => 0, u_actual := 0, e_int := 0 }
  else
    .error .configurationError

/-- Modelled from the spec: the two pieces of the physics the specification
leaves to the hydrodynamic formulation — `MinvForces` is M⁻¹ applied to the
generalized force vector of the maneuvering model, `J` is the kinematic
transformation taking body velocity to earth-fixed position/attitude rates. -/
structure EnvFns where
  MinvForces : Config → Vec6 → Vec6 → ℚ → Vec6
  J : Vec6 → Vec6 → Vec6

/-- Modelled from the spec (section 4.2): the heading error is the wrapped
signed difference of the current yaw (eta component 5) and the configured
desired heading, normalised to (-180, 180].  The orientation of the
difference follows the spec's worked example (desired 170, yaw -170 gives
+20, the wrap of -340). -/
def headingError (c : Config) (eta : Vec6) : ℚ := ssa (eta 5 - c.psi_d)

/-- Modelled from the spec (section 4.2): PD feedback plus an integral term
accumulated across calls with `dt` as the integration step, clipped to the
actuator position limits before being returned.  The result is the command
paired with the updated integral accumulator. -/
def headingAutopilot (c : Config) (e_int : ℚ) (eta nu : Vec6) (dt : ℚ) : ℚ × ℚ :=
  (clampQ (-c.deltaMax) c.deltaMax
      (-(c.Kp * headingError c eta + c.Kd * nu 5 +
          c.Ki * (e_int + dt * headingError c eta))),
    e_int + dt * headingError c eta)

/-- Modelled from the spec (section 4.1): one dynamics step.  The body
velocity takes an explicit Euler update by M⁻¹ times the forces; the realized
actuator state moves toward the command by at most `deltaRateMax * dt` and is
saturated at the position limit `deltaMax`. -/
def dynamics (env : EnvFns) (c : Config) (eta nu : Vec6)
    (u_actual u_control dt : ℚ) : Vec6 × ℚ :=
  (fun i => nu i + dt * env.MinvForces c eta nu u_actual i,
    clampQ (-c.deltaMax) c.deltaMax
      (u_actual +
        clampQ (-(c.deltaRateMax * dt)) (c.deltaRateMax * dt) (u_control - u_actual)))

/-- Modelled from the spec (section 4.3): explicit Euler attitude/position
update `eta + dt * J(eta) * nu`. -/
def attitudeEuler (env : EnvFns) (eta nu : Vec6) (dt : ℚ) : Vec6 :=
  fun i => eta i + dt * env.J eta nu i

/-- The mutable data of one iteration of the simulator for-loop of main.py:
the local variables `eta`, `nu`, `u_actual` and the autopilot memory carried
inside the vehicle object. -/
structure LoopState where
  eta : Vec6
  nu : Vec6
  u_actual : ℚ
  e_int : ℚ

/-- The state advance of one iteration of the simulator for-loop (main.py
lines 70-80): compute the command from the current state, advance `nu` and
`u_actual` through `dynamics`, then advance `eta` through `attitudeEuler`
using the updated `nu`. -/
def stepState (env : EnvFns) (c : Config) (dt : ℚ) (s : LoopState) : LoopState :=
  { eta := attitudeEuler env s.eta
      (dynamics env c s.eta s.nu s.u_actual
        (headingAutopilot c s.e_int s.eta s.nu dt).1 dt).1 dt,
    nu := (dynamics env c s.eta s.nu s.u_actual
      (headingAutopilot c s.e_int s.eta s.nu dt).1 dt).1,
    u_actual := (dynamics env c s.eta s.nu s.u_actual
      (headingAutopilot c s.e_int s.eta s.nu dt).1 dt).2,
    e_int := (headingAutopilot c s.e_int s.eta s.nu dt).2 }

/-- The row main.py line 75 stores for the current state: eta, nu, the
freshly computed command, and the prior (not yet advanced) `u_actual`. -/
def rowOf (c : Config) (dt : ℚ) (s : LoopState) : List ℚ :=
  List.ofFn s.eta ++ List.ofFn s.nu ++
    [(headingAutopilot c s.e_int s.eta s.nu dt).1] ++ [s.u_actual]

/-- Run k iterations of the simulator for-loop of main.py lines 65-80: each
iteration appends the row for the current state and only then advances the
state. -/
def loopIters (env : EnvFns) (c : Config) (dt : ℚ) :
    ℕ → LoopState → List (List ℚ) × LoopState
  | 0, s => ([], s)
  | k + 1, s =>
    (rowOf c dt s :: (loopIters env c dt k (stepState env c dt s)).1,
      (loopIters env c dt k (stepState env c dt s)).2)

/-- Modelled from the spec (section 6): the time vector 0, dt, ..., N*dt. -/
def timeVec (n : ℕ) (dt : ℚ) : List ℚ :=
  (List.range (n + 1)).map (fun i : ℕ => (i : ℚ) * dt)

/-- The loop state at the start of a run: the caller's initial eta paired
with the velocity, actuator state and controller memory read from the
vehicle object. -/
def initState (v : Vehicle) (eta0 : Vec6) : LoopState :=
  { eta := eta0, nu := v.nu, u_actual := v.u_actual, e_int := v.e_int }

/-- Modelled from the spec (sections 4.4 and 6): the driver
`simulate(N, sampleTime, vehicle, eta_init)` runs the loop for i in 0..N
inclusive and returns the time vector together with the history table. -/
def simulate (env : EnvFns) (n : ℕ) (dt : ℚ) (v : Vehicle) (eta0 : Vec6) :
    List ℚ × List (List ℚ) :=
  (timeVec n dt, (loopIters env v.cfg dt (n + 1) (initState v eta0)).1)

/-- Sample time of the scenario (main.py line 24). -/
def sampleTime : ℚ := 1 / 10

/-- Number of samples (main.py lines 25-27: `Tsim = 3 * 600.0`,
`N = int(Tsim / sampleTime)`). -/
def N : ℕ := 18000

/-- Desired delta heading in degrees (main.py line 40). -/
def psi_desired : ℚ := -80

/-- Ambient current speed (main.py line 41). -/
def U_current : ℚ := 10

/-- Desired forward speed (main.py line 42). -/
def U_desired : ℚ := 28

/-- Initial position and attitude (main.py line 43); the yaw of `pi/3` rad
is 60 degrees in the degree convention of this embedding. -/
def eta_init : Vec6 :=
  fun i => if i = 0 then 1000 else if i = 1 then 1000 else if i = 5 then 60 else 0

/-- Modelled from the spec: the configuration built by the `shipClarke83`
call of main.py line 47.  The hull parameters and speeds are the literals of
the call; the inertia data, gains and actuator limits are internal to the
vehicle class and are represented by fixed admissible values. -/
def mainConfig : Config :=
  { psi_d := psi_desired, L := 70, B := 8, T := 6, Cb := 7 / 10,
    U_current := U_current, U_desired := U_desired,
    Mdiag := fun _ => 1, Kp := 1, Kd := 1, Ki := 1 / 100,
    deltaMax := 30, deltaRateMax := 5 }

/-- The vehicle object constructed at main.py line 47. -/
def mainVehicle0 : Vehicle :=
  { cfg := mainConfig, nu := fun _ => 0, u_actual := 0, e_int := 0 }

/-- The inline simulator loop of main.py lines 50-80, started from
`eta_init` and the vehicle's initial `nu` and `u_actual`: the accumulated
`simData` table together with the final loop state. -/
def mainInline (env : EnvFns) : List (List ℚ) × LoopState :=
  loopIters env mainConfig sampleTime (N + 1) (initState mainVehicle0 eta_init)

/-- The vehicle object as it stands after the inline loop: its controller
memory has been advanced by every `headingAutopilot` call of the loop and
nothing resets it; `nu` and `u_actual` are attributes the loop never
reassigns. -/
def mainVehicleAfterInline (env : EnvFns) : Vehicle :=
  { mainVehicle0 with e_int := (mainInline env).2.e_int }

/-- The `np.arange` time vector built at main.py line 83 and immediately
overwritten at line 84. -/
def mainArangeTime : List ℚ := timeVec N sampleTime

/-- main.py lines 47-84: construct the vehicle, run the inline loop, build
the arange time vector, then rebind both `simTime` and `simData` to the
result of `simulate`, which receives the same vehicle object that already
served the inline loop.  The value is the `(simTime, simData)` pair handed
to `plotVehicleStates`. -/
def mainRun (env : EnvFns) : List ℚ × List (List ℚ) :=
  let inl := loopIters env mainConfig sampleTime (N + 1) (initState mainVehicle0 eta_init)
  let _simTimeArange := timeVec N sampleTime
  simulate env N sampleTime { mainVehicle0 with e_int := inl.2.e_int } eta_init

/-! Helper lemmas. -/

theorem ssa_lt_180 (x : ℚ) : -180 < ssa x := by
  have h := Int.ceil_lt_add_one ((x - 180) / 360)
  unfold ssa
  nlinarith [h]

theorem ssa_le_180 (x : ℚ) : ssa x ≤ 180 := by
  have h := Int.le_ceil ((x - 180) / 360)
  unfold ssa
  nlinarith [h]

theorem ssa_eq_of_bounds (x : ℚ) (k : ℤ) (h1 : -180 < x - 360 * k)
    (h2 : x - 360 * k ≤ 180) : ssa x = x - 360 * k := by
  have hc : ⌈(x - 180) / 360⌉ = k := by
    rw [Int.ceil_eq_iff]
    constructor
    · rw [lt_div_iff₀ (by norm_num : (0:ℚ) < 360)]
      linarith
    · rw [div_le_iff₀ (by norm_num : (0:ℚ) < 360)]
      linarith
  unfold ssa
  rw [hc]

theorem clampQ_abs_le (a x : ℚ) (ha : 0 ≤ a) : |clampQ (-a) a x| ≤ a := by
  rw [abs_le]
  unfold clampQ
  refine ⟨le_max_left _ _, max_le (by linarith) (min_le_left _ _)⟩

theorem clampQ_dist (lo hi x y : ℚ) (hlo : lo ≤ x) (hhi : x ≤ hi) :
    |clampQ lo hi y - x| ≤ |y - x| := by
  unfold clampQ
  rcases le_total x y with hxy | hxy
  · have h1 : x ≤ max lo (min hi y) :=
      le_trans (le_min hhi hxy) (le_max_right _ _)
    have h2 : max lo (min hi y) ≤ y :=
      max_le (le_trans hlo hxy) (min_le_right _ _)
    rw [abs_of_nonneg (by linarith), abs_of_nonneg (by linarith)]
    linarith
  · have h1 : max lo (min hi y) ≤ x :=
      max_le hlo (le_trans (min_le_right _ _) hxy)
    have h2 : y ≤ max lo (min hi y) :=
      le_trans (le_min (le_trans hxy hhi) le_rfl) (le_max_right _ _)
    rw [abs_of_nonpos (by linarith), abs_of_nonpos (by linarith)]
    linarith

theorem stepState_uactual_abs (env : EnvFns) (c : Config) (dt : ℚ)
    (s : LoopState) (hm : 0 ≤ c.deltaMax) :
    |(stepState env c dt s).u_actual| ≤ c.deltaMax := by
  have : (stepState env c dt s).u_actual =
      clampQ (-c.deltaMax) c.deltaMax
        (s.u_actual +
          clampQ (-(c.deltaRateMax * dt)) (c.deltaRateMax * dt)
            ((headingAutopilot c s.e_int s.eta s.nu dt).1 - s.u_actual)) := rfl
  rw [this]
  exact clampQ_abs_le _ _ hm

theorem stepState_uactual_rate (env : EnvFns) (c : Config) (dt : ℚ)
    (s : LoopState) (hr : 0 ≤ c.deltaRateMax * dt)
    (hs : |s.u_actual| ≤ c.deltaMax) :
    |(stepState env c dt s).u_actual - s.u_actual| ≤ c.deltaRateMax * dt := by
  have hd : (stepState env c dt s).u_actual =
      clampQ (-c.deltaMax) c.deltaMax
        (s.u_actual +
          clampQ (-(c.deltaRateMax * dt)) (c.deltaRateMax * dt)
            ((headingAutopilot c s.e_int s.eta s.nu dt).1 - s.u_actual)) := rfl
  rw [hd]
  obtain ⟨hlo, hhi⟩ := abs_le.mp hs
  calc |clampQ (-c.deltaMax) c.deltaMax
          (s.u_actual +
            clampQ (-(c.deltaRateMax * dt)) (c.deltaRateMax * dt)
              ((headingAutopilot c s.e_int s.eta s.nu dt).1 - s.u_actual)) -
          s.u_actual|
      ≤ |s.u_actual +
            clampQ (-(c.deltaRateMax * dt)) (c.deltaRateMax * dt)
              ((headingAutopilot c s.e_int s.eta s.nu dt).1 - s.u_actual) -
            s.u_actual| := clampQ_dist _ _ _ _ (by linarith) hhi
    _ = |clampQ (-(c.deltaRateMax * dt)) (c.deltaRateMax * dt)
            ((headingAutopilot c s.e_int s.eta s.nu dt).1 - s.u_actual)| := by
          ring_nf
    _ ≤ c.deltaRateMax * dt := clampQ_abs_le _ _ hr

theorem iterate_uactual_abs (env : EnvFns) (c : Config) (dt : ℚ)
    (s : LoopState) (hm : 0 ≤ c.deltaMax) (h0 : |s.u_actual| ≤ c.deltaMax) :
    ∀ k, |((stepState env c dt)^[k] s).u_actual| ≤ c.deltaMax := by
  intro k
  induction k with
  | zero => exact h0
  | succ k ih =>
    rw [Function.iterate_succ_apply']
    exact stepState_uactual_abs env c dt _ hm

theorem loopIters_fst_length (env : EnvFns) (c : Config) (dt : ℚ) (k : ℕ) :
    ∀ s : LoopState, ((loopIters env c dt k s).1).length = k := by
  induction k with
  | zero => intro s; rfl
  | succ k ih => intro s; simp [loopIters, ih]

theorem loopIters_fst_get (env : EnvFns) (c : Config) (dt : ℚ) (k : ℕ) :
    ∀ (s : LoopState) (i : ℕ), i < k →
      ((loopIters env c dt k s).1)[i]? =
        some (rowOf c dt ((stepState env c dt)^[i] s)) := by
  induction k with
  | zero => intro s i hi; exact absurd hi (Nat.not_lt_zero i)
  | succ k ih =>
    intro s i hi
    cases i with
    | zero => simp [loopIters]
    | succ j =>
      have h := ih (stepState env c dt s) j (Nat.lt_of_succ_lt_succ hi)
      simp only [loopIters, List.getElem?_cons_succ, h,
        Function.iterate_succ_apply]

theorem loopIters_snd (env : EnvFns) (c : Config) (dt : ℚ) (k : ℕ) :
    ∀ s : LoopState, (loopIters env c dt k s).2 = (stepState env c dt)^[k] s := by
  induction k with
  | zero => intro s; rfl
  | succ k ih =>
    intro s
    simp only [loopIters, ih, Function.iterate_succ_apply]

theorem timeVec_length (n : ℕ) (dt : ℚ) : (timeVec n dt).length = n + 1 := by
  rw [timeVec, List.length_map, List.length_range]

theorem timeVec_get (n : ℕ) (dt : ℚ) (i : ℕ) (hi : i ≤ n) :
    (timeVec n dt)[i]? = some ((i : ℚ) * dt) := by
  have hi' : i < n + 1 := Nat.lt_succ_of_le hi
  rw [timeVec, List.getElem?_map, List.getElem?_range hi']
  rfl

theorem shipClarke83_ok_elim (c : Config) (v : Vehicle)
    (h : shipClarke83 c = .ok v) :
    validConfig c ∧ v = { cfg := c, nu := fun _ => 0, u_actual := 0, e_int := 0 } := by
  by_cases hv : validConfig c
  · refine ⟨hv, ?_⟩
    rw [shipClarke83, if_pos hv] at h
    exact (Except.ok.inj h).symm
  · rw [shipClarke83, if_neg hv] at h
    exact absurd h (by simp)

/-! Concrete fixtures used to instantiate the theorems below. -/

/-- A physics environment with zero forces and zero kinematic rates; the
properties below hold for any environment, this one is used to evaluate
them on concrete inputs. -/
def envZero : EnvFns :=
  { MinvForces := fun _ _ _ _ => fun _ => 0, J := fun _ _ => fun _ => 0 }

/-- A small admissible configuration. -/
def demoCfg : Config :=
  { psi_d := 90, L := 1, B := 1, T := 1, Cb := 1, U_current := 1,
    U_desired := 1, Mdiag := fun _ => 1, Kp := 1, Kd := 0, Ki := 1,
    deltaMax := 1000, deltaRateMax := 1000 }

/-- The vehicle `shipClarke83` returns for `demoCfg`. -/
def demoVeh : Vehicle :=
  { cfg := demoCfg, nu := fun _ => 0, u_actual := 0, e_int := 0 }

/-- An attitude with all components zero. -/
def demoEta : Vec6 := fun _ => 0

theorem demoCfg_valid : validConfig demoCfg := by
  refine ⟨by norm_num [demoCfg], by norm_num [demoCfg], by norm_num [demoCfg],
    ?_, by norm_num [demoCfg], by norm_num [demoCfg]⟩
  intro i
  norm_num [demoCfg]

theorem demo_ok : shipClarke83 demoCfg = .ok demoVeh := by
  rw [shipClarke83, if_pos demoCfg_valid]
  rfl

theorem mainConfig_valid : validConfig mainConfig := by
  refine ⟨by norm_num [mainConfig], by norm_num [mainConfig, U_current],
    by norm_num [mainConfig, U_desired], ?_, by norm_num [mainConfig],
    by norm_num [mainConfig]⟩
  intro i
  norm_num [mainConfig]

/-- The construction of main.py line 47 succeeds on the modelled
configuration. -/
theorem shipClarke83_main : shipClarke83 mainConfig = .ok mainVehicle0 := by
  rw [shipClarke83, if_pos mainConfig_valid]
  rfl

theorem ssa_neg90 : ssa (-90 : ℚ) = -90 := by
  have h := ssa_eq_of_bounds (-90) 0 (by norm_num) (by norm_num)
  simpa using h

theorem headingError_demo : headingError demoCfg demoEta = -90 := by
  have harg : demoEta 5 - demoCfg.psi_d = -90 := by norm_num [demoEta, demoCfg]
  rw [headingError, harg, ssa_neg90]

/-! The claims. -/

/-- C1: for N > 0 and dt > 0, `simulate` returns a time vector with N+1
entries and a history table with N+1 rows; time entry i equals i*dt, and row
i is the recorded row of the state reached after i steps from the initial
state, i.e. it describes the system at simulated time i*dt. -/
theorem c1_simulate_shape (env : EnvFns) (n : ℕ) (dt : ℚ) (v : Vehicle)
    (eta0 : Vec6) (_hn : 0 < n) (_hdt : 0 < dt) :
    (simulate env n dt v eta0).1.length = n + 1 ∧
    (simulate env n dt v eta0).2.length = n + 1 ∧
    ∀ i ≤ n,
      (simulate env n dt v eta0).1[i]? = some ((i : ℚ) * dt) ∧
      (simulate env n dt v eta0).2[i]? =
        some (rowOf v.cfg dt ((stepState env v.cfg dt)^[i] (initState v eta0))) := by
  refine ⟨timeVec_length n dt,
    loopIters_fst_length env v.cfg dt (n + 1) (initState v eta0), ?_⟩
  intro i hi
  exact ⟨timeVec_get n dt i hi,
    loopIters_fst_get env v.cfg dt (n + 1) (initState v eta0) i
      (Nat.lt_succ_of_le hi)⟩

theorem c1_simulate_shape_witness :
    0 < 1 ∧ (0 : ℚ) < 1 ∧
    ((simulate envZero 1 1 demoVeh demoEta).1.length = 1 + 1 ∧
     (simulate envZero 1 1 demoVeh demoEta).2.length = 1 + 1 ∧
     ∀ i : ℕ, i ≤ 1 →
       (simulate envZero 1 1 demoVeh demoEta).1[i]? = some ((i : ℚ) * 1) ∧
       (simulate envZero 1 1 demoVeh demoEta).2[i]? =
         some (rowOf demoVeh.cfg 1
           ((stepState envZero demoVeh.cfg 1)^[i] (initState demoVeh demoEta)))) :=
  ⟨Nat.one_pos, by norm_num,
    c1_simulate_shape envZero 1 1 demoVeh demoEta Nat.one_pos (by norm_num)⟩

/-- C2: the row appended at index i of the driver loop is built from the
pre-advance state — eta and nu as they are at the start of iteration i, the
command freshly computed from that same state and controller memory, and the
prior u_actual — and the dynamics/kinematics advance happens only after the
row is recorded: the state of iteration i+1 is `stepState` of the recorded
state. -/
theorem c2_row_pre_update (env : EnvFns) (c : Config) (dt : ℚ) (k : ℕ)
    (s : LoopState) (i : ℕ) (hi : i < k) :
    ((loopIters env c dt k s).1)[i]? =
      some (List.ofFn ((stepState env c dt)^[i] s).eta ++
            List.ofFn ((stepState env c dt)^[i] s).nu ++
            [(headingAutopilot c ((stepState env c dt)^[i] s).e_int
                ((stepState env c dt)^[i] s).eta
                ((stepState env c dt)^[i] s).nu dt).1] ++
            [((stepState env c dt)^[i] s).u_actual]) ∧
    (stepState env c dt)^[i + 1] s = stepState env c dt ((stepState env c dt)^[i] s) :=
  ⟨loopIters_fst_get env c dt k s i hi, Function.iterate_succ_apply' _ _ _⟩

theorem c2_row_pre_update_witness :
    0 < 1 ∧
    (((loopIters envZero demoCfg 1 1 (initState demoVeh demoEta)).1)[0]? =
      some (List.ofFn ((stepState envZero demoCfg 1)^[0] (initState demoVeh demoEta)).eta ++
            List.ofFn ((stepState envZero demoCfg 1)^[0] (initState demoVeh demoEta)).nu ++
            [(headingAutopilot demoCfg
                ((stepState envZero demoCfg 1)^[0] (initState demoVeh demoEta)).e_int
                ((stepState envZero demoCfg 1)^[0] (initState demoVeh demoEta)).eta
                ((stepState envZero demoCfg 1)^[0] (initState demoVeh demoEta)).nu 1).1] ++
            [((stepState envZero demoCfg 1)^[0] (initState demoVeh demoEta)).u_actual]) ∧
    (stepState envZero demoCfg 1)^[0 + 1] (initState demoVeh demoEta) =
      stepState envZero demoCfg 1
        ((stepState envZero demoCfg 1)^[0] (initState demoVeh demoEta))) :=
  ⟨Nat.one_pos,
    c2_row_pre_update envZero demoCfg 1 1 (initState demoVeh demoEta) 0 Nat.one_pos⟩

/-- A configuration whose desired heading is 170 degrees. -/
def cfg170 : Config := { demoCfg with psi_d := 170 }

/-- An attitude whose yaw is -170 degrees. -/
def eta170 : Vec6 := fun i => if i = 5 then -170 else 0

/-- C3: for every configured desired heading and every yaw, the heading
error the autopilot computes lies in (-180, 180] and differs from the raw
signed difference by a multiple of 360 (it is the wrapped signed
difference); for desired heading 170 and yaw -170 the error is 20 — the
wrap of the raw difference -340 — not -340. -/
theorem c3_heading_error_wrap :
    (∀ (c : Config) (eta : Vec6),
       -180 < headingError c eta ∧ headingError c eta ≤ 180 ∧
       ∃ k : ℤ, headingError c eta = (eta 5 - c.psi_d) - 360 * k) ∧
    eta170 5 - cfg170.psi_d = -340 ∧ headingError cfg170 eta170 = 20 := by
  refine ⟨fun c eta => ⟨ssa_lt_180 _, ssa_le_180 _, ⟨_, rfl⟩⟩, ?_, ?_⟩
  · norm_num [eta170, cfg170]
  · have harg : eta170 5 - cfg170.psi_d = -340 := by norm_num [eta170, cfg170]
    have h2 : ssa (-340 : ℚ) = 20 := by
      have h := ssa_eq_of_bounds (-340) (-1) (by norm_num) (by norm_num)
      norm_num at h
      exact h
    rw [headingError, harg, h2]

/-- C4: along a run started from a successfully constructed vehicle, with a
positive sample time, every step changes the realized actuator state by at
most the configured rate limit times dt. -/
theorem c4_rate_limit (env : EnvFns) (c : Config) (v : Vehicle) (eta0 : Vec6)
    (dt : ℚ) (hv : shipClarke83 c = .ok v) (hdt : 0 < dt) (i : ℕ) :
    |((stepState env c dt)^[i + 1] (initState v eta0)).u_actual -
      ((stepState env c dt)^[i] (initState v eta0)).u_actual| ≤
      c.deltaRateMax * dt := by
  obtain ⟨hvc, hveq⟩ := shipClarke83_ok_elim c v hv
  obtain ⟨-, -, -, -, hm, hr⟩ := hvc
  have h0 : |(initState v eta0).u_actual| ≤ c.deltaMax := by
    rw [hveq]
    simpa [initState] using le_of_lt hm
  have hinv := iterate_uactual_abs env c dt (initState v eta0) (le_of_lt hm) h0 i
  rw [Function.iterate_succ_apply']
  exact stepState_uactual_rate env c dt _ (mul_nonneg (le_of_lt hr) (le_of_lt hdt)) hinv

theorem c4_rate_limit_witness :
    shipClarke83 demoCfg = .ok demoVeh ∧ (0 : ℚ) < 1 ∧
    |((stepState envZero demoCfg 1)^[0 + 1] (initState demoVeh demoEta)).u_actual -
      ((stepState envZero demoCfg 1)^[0] (initState demoVeh demoEta)).u_actual| ≤
      demoCfg.deltaRateMax * 1 :=
  ⟨demo_ok, by norm_num,
    c4_rate_limit envZero demoCfg demoVeh demoEta 1 demo_ok (by norm_num) 0⟩

/-- C5: along a run started from a successfully constructed vehicle the
realized actuator state always stays within the configured position limit,
and every command the autopilot returns is clipped to that limit before
being returned. -/
theorem c5_position_limit (env : EnvFns) (c : Config) (v : Vehicle)
    (eta0 : Vec6) (dt : ℚ) (hv : shipClarke83 c = .ok v) :
    (∀ i, |((stepState env c dt)^[i] (initState v eta0)).u_actual| ≤ c.deltaMax) ∧
    (∀ (e_int : ℚ) (eta nu : Vec6),
       |(headingAutopilot c e_int eta nu dt).1| ≤ c.deltaMax) := by
  obtain ⟨hvc, hveq⟩ := shipClarke83_ok_elim c v hv
  obtain ⟨-, -, -, -, hm, -⟩ := hvc
  have h0 : |(initState v eta0).u_actual| ≤ c.deltaMax := by
    rw [hveq]
    simpa [initState] using le_of_lt hm
  exact ⟨iterate_uactual_abs env c dt (initState v eta0) (le_of_lt hm) h0,
    fun e_int eta nu => clampQ_abs_le _ _ (le_of_lt hm)⟩

theorem c5_position_limit_witness :
    shipClarke83 demoCfg = .ok demoVeh ∧
    ((∀ i, |((stepState envZero demoCfg 1)^[i] (initState demoVeh demoEta)).u_actual| ≤
        demoCfg.deltaMax) ∧
     (∀ (e_int : ℚ) (eta nu : Vec6),
        |(headingAutopilot demoCfg e_int eta nu 1).1| ≤ demoCfg.deltaMax)) :=
  ⟨demo_ok, c5_position_limit envZero demoCfg demoVeh demoEta 1 demo_ok⟩

/-- C6: every row of the history table is, left to right, the concatenation
of the 6 eta components, the 6 nu components, the dimU command components
and the dimU realized-actuator components, for 2*DOF + 2*dimU columns. -/
theorem c6_row_layout (env : EnvFns) (c : Config) (dt : ℚ) (k : ℕ)
    (s : LoopState) (i : ℕ) (hi : i < k) :
    ∃ s' : LoopState,
      ((loopIters env c dt k s).1)[i]? = some (rowOf c dt s') ∧
      rowOf c dt s' =
        List.ofFn s'.eta ++ List.ofFn s'.nu ++
          [(headingAutopilot c s'.e_int s'.eta s'.nu dt).1] ++ [s'.u_actual] ∧
      (List.ofFn s'.eta).length = DOF ∧
      (List.ofFn s'.nu).length = DOF ∧
      (rowOf c dt s').length = 2 * DOF + 2 * dimU := by
  refine ⟨(stepState env c dt)^[i] s, loopIters_fst_get env c dt k s i hi,
    rfl, ?_, ?_, ?_⟩
  · simp [DOF]
  · simp [DOF]
  · simp [rowOf, DOF, dimU]

theorem c6_row_layout_witness :
    0 < 1 ∧
    ∃ s' : LoopState,
      ((loopIters envZero demoCfg 1 1 (initState demoVeh demoEta)).1)[0]? =
        some (rowOf demoCfg 1 s') ∧
      rowOf demoCfg 1 s' =
        List.ofFn s'.eta ++ List.ofFn s'.nu ++
          [(headingAutopilot demoCfg s'.e_int s'.eta s'.nu 1).1] ++ [s'.u_actual] ∧
      (List.ofFn s'.eta).length = DOF ∧
      (List.ofFn s'.nu).length = DOF ∧
      (rowOf demoCfg 1 s').length = 2 * DOF + 2 * dimU :=
  ⟨Nat.one_pos,
    c6_row_layout envZero demoCfg 1 1 (initState demoVeh demoEta) 0 Nat.one_pos⟩

/-- C9: two runs with identical configuration, identical initial eta,
identical N and identical dt produce identical time vectors and identical
history tables: construction from the same configuration yields the same
vehicle, and the whole run is a pure function of its arguments. -/
theorem c9_deterministic (env : EnvFns) (n : ℕ) (dt : ℚ) (c : Config)
    (eta0 : Vec6) (v1 v2 : Vehicle) (h1 : shipClarke83 c = .ok v1)
    (h2 : shipClarke83 c = .ok v2) :
    simulate env n dt v1 eta0 = simulate env n dt v2 eta0 := by
  obtain ⟨-, e1⟩ := shipClarke83_ok_elim c v1 h1
  obtain ⟨-, e2⟩ := shipClarke83_ok_elim c v2 h2
  rw [e1, e2]

theorem c9_deterministic_witness :
    shipClarke83 demoCfg = .ok demoVeh ∧ shipClarke83 demoCfg = .ok demoVeh ∧
    simulate envZero 2 1 demoVeh demoEta = simulate envZero 2 1 demoVeh demoEta :=
  ⟨demo_ok, demo_ok,
    c9_deterministic envZero 2 1 demoCfg demoEta demoVeh demoVeh demo_ok demo_ok⟩

/-- C10: constructing a vehicle with non-positive hull length — or a
non-positive speed parameter, or a singular (here: zero diagonal entry)
mass/inertia matrix — fails with ConfigurationError, and the failure is
fatal: no vehicle is returned for such a configuration. -/
theorem c10_construction_validation (c : Config)
    (h : c.L ≤ 0 ∨ c.U_current ≤ 0 ∨ c.U_desired ≤ 0 ∨ ∃ i, c.Mdiag i = 0) :
    shipClarke83 c = .error .configurationError ∧
      ∀ v : Vehicle, shipClarke83 c ≠ .ok v := by
  have hnv : ¬ validConfig c := by
    rintro ⟨hL, hUc, hUd, hM, -, -⟩
    rcases h with h | h | h | ⟨i, hi⟩
    · linarith
    · linarith
    · linarith
    · exact hM i hi
  rw [shipClarke83, if_neg hnv]
  exact ⟨rfl, fun v hv => Except.noConfusion hv⟩

/-- A configuration with hull length zero. -/
def badCfg : Config := { demoCfg with L := 0 }

theorem c10_construction_validation_witness :
    (badCfg.L ≤ 0 ∨ badCfg.U_current ≤ 0 ∨ badCfg.U_desired ≤ 0 ∨
      ∃ i, badCfg.Mdiag i = 0) ∧
    (shipClarke83 badCfg = .error .configurationError ∧
      ∀ v : Vehicle, shipClarke83 badCfg ≠ .ok v) :=
  ⟨Or.inl (by norm_num [badCfg]),
    c10_construction_validation badCfg (Or.inl (by norm_num [badCfg]))⟩

set_option maxRecDepth 4096 in
/-- C7: the (simTime, simData) pair main hands to plotting is exactly the
pair returned by simulate(N, sampleTime, vehicle, eta_init) — the time
vector built inline and the table accumulated by the inline loop are both
rebound before any use — and the vehicle reaching that simulate call carries
the controller memory left by the N+1 autopilot calls of the inline loop. -/
theorem c7_main_plots_simulate (env : EnvFns) :
    mainRun env = simulate env N sampleTime (mainVehicleAfterInline env) eta_init ∧
    (mainVehicleAfterInline env).e_int =
      ((stepState env mainConfig sampleTime)^[N + 1]
        (initState mainVehicle0 eta_init)).e_int := by
  constructor
  · have hA : mainRun env =
        simulate env N sampleTime
          { mainVehicle0 with
            e_int := (loopIters env mainConfig sampleTime (N + 1)
              (initState mainVehicle0 eta_init)).2.e_int } eta_init := rfl
    have hB : mainVehicleAfterInline env =
        { mainVehicle0 with
          e_int := (loopIters env mainConfig sampleTime (N + 1)
            (initState mainVehicle0 eta_init)).2.e_int } := rfl
    exact hA.trans
      (congrArg (fun v => simulate env N sampleTime v eta_init) hB.symm)
  · simp only [mainVehicleAfterInline, mainInline]
    rw [loopIters_snd]

theorem clampQ_eq_self (lo hi x : ℚ) (h1 : lo ≤ x) (h2 : x ≤ hi) :
    clampQ lo hi x = x := by
  unfold clampQ
  rw [min_eq_right h2, max_eq_right h1]

theorem rowOf_cmd (c : Config) (dt : ℚ) (s : LoopState) :
    (rowOf c dt s)[12]? = some (headingAutopilot c s.e_int s.eta s.nu dt).1 := by
  simp [rowOf, List.getElem?_append]

theorem headingAutopilot_demo_cmd (e0 : ℚ) (h1 : (-1000 : ℚ) ≤ 180 - e0)
    (h2 : (180 : ℚ) - e0 ≤ 1000) :
    (headingAutopilot demoCfg e0 demoEta (fun _ => 0) 1).1 = 180 - e0 := by
  simp only [headingAutopilot]
  rw [headingError_demo]
  simp only [demoCfg]
  norm_num
  rw [show (90 : ℚ) + -e0 + 90 = 180 - e0 by ring]
  exact clampQ_eq_self _ _ _ h1 h2

/-- The integral accumulator left behind by one iteration of the inline
loop on the demo configuration. -/
theorem leak_e_int :
    (loopIters envZero demoCfg 1 1 (initState demoVeh demoEta)).2.e_int = -90 := by
  rw [loopIters_snd, Function.iterate_one]
  simp only [stepState, initState, demoVeh, headingAutopilot]
  rw [headingError_demo]
  norm_num

/-- The vehicle object after it has served one inline-loop iteration on the
demo scenario: its integral accumulator carries the accumulated heading
error; nothing has reset it. -/
def vLeak : Vehicle :=
  { demoVeh with
    e_int := (loopIters envZero demoCfg 1 1 (initState demoVeh demoEta)).2.e_int }

/-- C8: controller memory is not reset when a new run starts.  After one
inline-loop iteration the integral accumulator is nonzero, and a simulate
run on the vehicle carrying that accumulator — the situation of main.py
line 84, which passes the very vehicle that served the inline loop —
produces a different history table than a simulate run on the freshly
constructed vehicle: the later run does not start from fresh controller
state. -/
theorem c8_controller_memory_leak :
    (loopIters envZero demoCfg 1 1 (initState demoVeh demoEta)).2.e_int ≠ 0 ∧
    simulate envZero 0 1 vLeak demoEta ≠ simulate envZero 0 1 demoVeh demoEta := by
  constructor
  · rw [leak_e_int]
    norm_num
  · intro hEq
    have hgetL : (simulate envZero 0 1 vLeak demoEta).2[0]? =
        some (rowOf vLeak.cfg 1 (initState vLeak demoEta)) :=
      loopIters_fst_get envZero vLeak.cfg 1 1 (initState vLeak demoEta) 0 Nat.one_pos
    have hgetF : (simulate envZero 0 1 demoVeh demoEta).2[0]? =
        some (rowOf demoVeh.cfg 1 (initState demoVeh demoEta)) :=
      loopIters_fst_get envZero demoVeh.cfg 1 1 (initState demoVeh demoEta) 0
        Nat.one_pos
    have h3 := congrArg (fun p : List ℚ × List (List ℚ) => p.2[0]?) hEq
    dsimp only at h3
    rw [hgetL, hgetF] at h3
    have hleak : (loopIters envZero demoCfg 1 1
        { eta := demoEta, nu := demoVeh.nu, u_actual := demoVeh.u_actual,
          e_int := demoVeh.e_int }).2.e_int = -90 := by
      have h := leak_e_int
      simp only [initState] at h
      exact h
    have h5 := congrArg (fun l : List ℚ => l[12]?) (Option.some.inj h3)
    dsimp only at h5
    rw [rowOf_cmd, rowOf_cmd] at h5
    simp only [initState, vLeak] at h5
    rw [hleak] at h5
    simp only [demoVeh] at h5
    rw [headingAutopilot_demo_cmd (-90) (by norm_num) (by norm_num),
      headingAutopilot_demo_cmd 0 (by norm_num) (by norm_num)] at h5
    norm_num at h5
